import Mathlib

/-!
A shallow embedding of src/tworoutine.py: the tworoutine class (the
DualModeCallable of the specification), its descriptor binding (the method
at lines 22-34), its synchronous call operator (lines 36-47), its coroutine
projection (lines 49-50), and the asyncio / nest_asyncio facilities the
class consumes, modelled with the Python 3.7 semantics the test suite
targets (the test file's shebang pins python3.7).

Object identity matters to several properties (a binding event must allocate
a fresh wrapper and must not mutate the original), so tworoutine objects live
in an explicit store and are referred to by index; the remaining process
state is the nest_asyncio patch flag, the nesting depth of drive-to-completion
calls active on the thread, and whether the thread has an event loop set.
-/

/-- Python values appearing in the embedding as binding receivers and as
computation data. -/
inductive Val where
  | none
  | bool (b : Bool)
  | int (n : Int)
  | str (s : String)
  | obj (clsId : Nat) (objId : Nat)
  | cls (clsId : Nat)
deriving DecidableEq, Repr

/-- Python truthiness of the modelled values, as tested by an if statement. -/
def truthy : Val → Bool
  | .none => false
  | .bool b => b
  | .int n => n != 0
  | .str s => s != ""
  | .obj _ _ => true
  | .cls _ => true

/-- The type name CPython would report for a modelled value. -/
def Val.typeName : Val → String
  | .none => "NoneType"
  | .bool _ => "bool"
  | .int _ => "int"
  | .str _ => "str"
  | .obj _ _ => "object"
  | .cls _ => "type"

/-- Python exceptions relevant to the embedding: a kind together with its
payload or message. -/
inductive PyErr where
  | typeError (msg : String)
  | attributeError (msg : String)
  | runtimeError (msg : String)
  | userError (kind : String) (payload : Val)
deriving DecidableEq, Repr

/-- Discriminates RuntimeError, the kind caught by the except clause of
tworoutine.__call__ (src/tworoutine.py line 44). -/
def PyErr.isRuntimeError : PyErr → Bool
  | .runtimeError _ => true
  | _ => false

def arityMsg : String := "wrong number of positional arguments"

def classmethodNotCallableMsg : String := "classmethod object is not callable"

def staticmethodNotCallableMsg : String := "staticmethod object is not callable"

def noLoopMsg : String := "There is no current event loop in thread"

def loopRunningMsg : String := "This event loop is already running"

def invalidRefMsg : String := "invalid object reference"

/-- A coroutine object: in this embedding the suspendable computation is
recorded by the outcome it produces when a scheduler drives it to
completion. -/
structure Coro where
  result : Except PyErr Val

/-- An async-def function from the repository: a positional-parameter count
and the pure computation performed when the produced coroutine is awaited;
a failure raised by the computation is recorded as an error outcome. -/
structure CoroFn where
  arity : Nat
  body : List Val → Except PyErr Val

/-- The wrapped callable a tworoutine can hold (its private coroutine
attribute): a plain async function, a classmethod or staticmethod descriptor
around one, or a bound method. -/
inductive Factory where
  | plain (f : CoroFn)
  | classmethodDesc (f : CoroFn)
  | staticmethodDesc (f : CoroFn)
  | boundMethod (recv : Val) (f : CoroFn)

/-- Models CPython invocation of a stored callable under Python 3.7: calling
a plain async function with the wrong number of positional arguments raises
TypeError, and with the right number creates the coroutine object; a bound
method prepends its receiver to the arguments; classmethod and staticmethod
descriptor objects are not callable in Python 3.7. -/
def Factory.call : Factory → List Val → Except PyErr Coro
  | .plain f, args =>
      if args.length = f.arity then .ok { result := f.body args }
      else .error (.typeError arityMsg)
  | .boundMethod recv f, args =>
      if args.length + 1 = f.arity then .ok { result := f.body (recv :: args) }
      else .error (.typeError arityMsg)
  | .classmethodDesc _, _ => .error (.typeError classmethodNotCallableMsg)
  | .staticmethodDesc _, _ => .error (.typeError staticmethodNotCallableMsg)

/-- Models the CPython descriptor protocol of the stored callable itself:
the dunder get of a plain function binds the accessing instance, that of a
classmethod descriptor binds the owning class, that of a staticmethod
descriptor returns the plain function, and a bound method returns itself.
This is the binding step the specification requires the wrapper to apply to
the factory before re-wrapping it. -/
def Factory.get : Factory → Val → Val → Factory
  | .plain f, inst, _ => .boundMethod inst f
  | .classmethodDesc f, _, owner => .boundMethod owner f
  | .staticmethodDesc f, _, _ => .plain f
  | .boundMethod r f, _, _ => .boundMethod r f

/-- Models CPython attribute lookup of the dunder get slot on a receiver
value: none of the modelled receiver types (NoneType, bool, int, str, plain
instances, classes) define such a slot, so the lookup raises AttributeError,
exactly as CPython does for these types. -/
def Val.dunderGet (v : Val) (_inst _owner : Val) : Except PyErr Val :=
  .error (.attributeError (v.typeName ++ " object has no attribute __get__"))

/-- The event loop obtained by the synchronous call operator: either the
loop already set on the calling thread or a freshly created one. -/
inductive Loop where
  | existingLoop
  | newLoop
deriving DecidableEq, Repr

/-- A tworoutine object (src/tworoutine.py lines 13-20): the wrapped
callable (source attribute name: a private coroutine attribute) and the
receiver it was bound to (source attribute name: instance, default None,
meaning unbound). -/
structure Tworoutine where
  coroutine : Factory
  boundInstance : Val

/-- The process state threaded through the embedding: the store of allocated
tworoutine objects (identity is the index), whether nest_asyncio has patched
the scheduler facility, how many drive-to-completion calls are already
active on the thread, and whether the thread has an event loop set. -/
structure State where
  objs : List Tworoutine
  patched : Bool
  depth : Nat
  hasLoop : Bool

/-- Modelled from the spec: the external scheduler facility's process-wide
re-entrancy capability enablement (the nest_asyncio.apply call at
src/tworoutine.py line 20; the nest_asyncio library itself is an external
dependency, not part of this repository). Per the specification it is
idempotent and has no observable effect once applied: the model records it
as setting a single flag. -/
def nestAsyncioApply (s : State) : State := { s with patched := true }

/-- tworoutine.__init__ (src/tworoutine.py lines 17-20): stores the wrapped
callable and the optional binding receiver (source name: instance, default
None), applies the nest_asyncio patch, and allocates the object. Returns the
id of the new object together with the post-state. -/
def twInit (coroutine : Factory) (inst : Val) (s : State) : Nat × State :=
  let s1 := { s with objs := s.objs ++ [{ coroutine := coroutine, boundInstance := inst }] }
  (s.objs.length, nestAsyncioApply s1)

/-- Models asyncio.get_event_loop on the calling thread: returns the active
event loop when one is set, and raises RuntimeError when none is. -/
def getEventLoop (s : State) : Except PyErr Loop :=
  if s.hasLoop then .ok Loop.existingLoop else .error (.runtimeError noLoopMsg)

/-- The try/except block of tworoutine.__call__ (src/tworoutine.py lines
42-45): reuse the thread's event loop; on RuntimeError create a new one;
any other failure propagates. -/
def twAcquireLoop (s : State) : Except PyErr Loop :=
  match getEventLoop s with
  | .ok l => .ok l
  | .error e => if e.isRuntimeError then .ok Loop.newLoop else .error e

/-- Models loop.run_until_complete: without the nest_asyncio patch, asyncio
refuses to drive a loop while another drive-to-completion is already active
on the thread and raises RuntimeError (this refusal is independent of which
loop is used, so the loop argument does not affect the outcome); with the
patch applied, the coroutine is driven to completion and its outcome is
returned. -/
def runUntilComplete (_loop : Loop) (s : State) (c : Coro) : Except PyErr Val :=
  if 0 < s.depth ∧ s.patched = false then .error (.runtimeError loopRunningMsg)
  else c.result

/-- tworoutine.__invert__ (src/tworoutine.py lines 49-50): return the stored
callable. -/
def twInvert (t : Tworoutine) : Factory := t.coroutine

/-- The result of an attribute access through the descriptor protocol:
either a tworoutine object (by id) or some other Python value. -/
inductive GetResult where
  | twObj (id : Nat)
  | other (v : Val)
deriving DecidableEq, Repr

/-- tworoutine.__get__ (src/tworoutine.py lines 22-34), line by line: if the
accessing instance is None, return self; else if the stored receiver is
truthy, evaluate the dunder get attribute of the stored receiver at the
accessing instance and owner; else construct a new tworoutine around the
same stored callable with the accessing instance as receiver and return
it. -/
def twGet (s : State) (selfId : Nat) (inst owner : Val) : Except PyErr (GetResult × State) :=
  match s.objs[selfId]? with
  | Option.none => .error (.runtimeError invalidRefMsg)
  | Option.some self =>
    if inst = Val.none then
      .ok (.twObj selfId, s)
    else if truthy self.boundInstance then
      match self.boundInstance.dunderGet inst owner with
      | .error e => .error e
      | .ok v => .ok (.other v, s)
    else
      let r := twInit self.coroutine inst s
      .ok (.twObj r.1, r.2)

/-- The projection of tworoutine.__invert__ as executed on an object in the
store, with the process state threaded to record that the projection
performs no state change and runs no computation. -/
def twInvertS (s : State) (id : Nat) : Except PyErr (Factory × State) :=
  match s.objs[id]? with
  | Option.none => .error (.runtimeError invalidRefMsg)
  | Option.some t => .ok (twInvert t, s)

/-- tworoutine.__call__ (src/tworoutine.py lines 36-47): acquire an event
loop (reusing the thread's loop, or creating one on RuntimeError), invoke
the projected callable on the arguments to obtain a coroutine, and drive it
to completion on the acquired loop. -/
def twCall (s : State) (self : Tworoutine) (args : List Val) : Except PyErr Val :=
  match twAcquireLoop s with
  | .error e => .error e
  | .ok loop =>
      match Factory.call (twInvert self) args with
      | .error e => .error e
      | .ok c => runUntilComplete loop s c

/-- Modelled from the spec: the asynchronous calling convention, in which
the caller extracts the factory through the as-suspendable operator, invokes
it with the arguments, and drives the resulting suspendable computation to
completion on a scheduler of its own. -/
def specAsyncConvention (s : State) (t : Tworoutine) (args : List Val) : Except PyErr Val :=
  match Factory.call (twInvert t) args with
  | .error e => .error e
  | .ok c => runUntilComplete Loop.newLoop s c

/-- Modelled from the spec: the correct result of invoking the wrapped
factory on the arguments, namely the outcome of the suspendable computation
it constructs (or the failure raised while constructing it). -/
def coroResult (t : Tworoutine) (args : List Val) : Except PyErr Val :=
  match Factory.call (twInvert t) args with
  | .error e => .error e
  | .ok c => c.result

/-- The post-state of an attribute access, whether or not the access
raised. -/
def stateAfterGet (s : State) (selfId : Nat) (inst owner : Val) : State :=
  match twGet s selfId inst owner with
  | .ok r => r.2
  | .error _ => s

/-- A sequence of attribute accesses of the same stored class attribute,
threading the process state through the accesses. -/
def twGetEvents (s : State) (selfId : Nat) : List (Val × Val) → State
  | [] => s
  | e :: rest => twGetEvents (stateAfterGet s selfId e.1 e.2) selfId rest

/-- The instance-method async function of the test suite (two positional
parameters, the receiver and the argument; the coroutine doubles the
argument). The classmethod variant has the same shape with the owning class
as first parameter. -/
def sleepyDoubleFn : CoroFn :=
  { arity := 2,
    body := fun args =>
      match args with
      | [_, Val.int n] => .ok (Val.int (2 * n))
      | _ => .error (.typeError arityMsg) }

/-- The free-function and staticmethod async function of the test suite (one
positional parameter; the coroutine doubles it). -/
def sleepyDoubleFunctionFn : CoroFn :=
  { arity := 1,
    body := fun args =>
      match args with
      | [Val.int n] => .ok (Val.int (2 * n))
      | _ => .error (.typeError arityMsg) }

/-- A factory whose coroutine raises ValueError with payload boom. -/
def failingFn : CoroFn :=
  { arity := 0, body := fun _ => .error (.userError "ValueError" (Val.str "boom")) }

/-- The test-suite instance receiving the bound methods. -/
def testInstance : Val := Val.obj 0 0

/-- The test-suite class owning the decorated methods. -/
def testClass : Val := Val.cls 0

/-- Process state at interpreter start: no objects, unpatched, no active
drive-to-completion, thread event loop set. -/
def startState : State := { objs := [], patched := false, depth := 0, hasLoop := true }

/-- The decorated-but-unbound instance-method wrapper of the test suite. -/
def methodUnbound : Tworoutine :=
  { coroutine := Factory.plain sleepyDoubleFn, boundInstance := Val.none }

/-- State after the decoration step allocated the unbound wrapper. -/
def decoratedState : State := (twInit (Factory.plain sleepyDoubleFn) Val.none startState).2

/-- The bound copy the access step allocates: same (unbound) stored
callable, receiver recorded. -/
def methodBound : Tworoutine :=
  { coroutine := Factory.plain sleepyDoubleFn, boundInstance := testInstance }

/-- State after the attribute access allocated the bound copy. -/
def accessedState : State :=
  { objs := [methodUnbound, methodBound], patched := true, depth := 0, hasLoop := true }

/-- A store holding only an already-bound copy, as object 0. -/
def boundState : State :=
  { objs := [methodBound], patched := true, depth := 0, hasLoop := true }

/-- A store holding only the unbound wrapper, unpatched. -/
def unboundState : State :=
  { objs := [methodUnbound], patched := false, depth := 0, hasLoop := true }

/-- Two binding events: one through the instance, one through the class. -/
def evsW : List (Val × Val) := [(testInstance, testClass), (Val.none, testClass)]

/-- A store holding a bound copy whose stored receiver is the falsy value
int 0. -/
def falsyBoundState : State :=
  { objs := [{ coroutine := Factory.plain sleepyDoubleFn, boundInstance := Val.int 0 }],
    patched := true, depth := 0, hasLoop := true }

/-- Process state mid-execution of a suspendable computation (one
drive-to-completion active), after the patch was applied. -/
def midExecState : State := { objs := [], patched := true, depth := 1, hasLoop := true }

/-- The decorated free function of the test suite. -/
def freeTw : Tworoutine :=
  { coroutine := Factory.plain sleepyDoubleFunctionFn, boundInstance := Val.none }

/-- A wrapper around the failing factory. -/
def failingTw : Tworoutine :=
  { coroutine := Factory.plain failingFn, boundInstance := Val.none }

/-- Process state on a thread with no event loop set. -/
def noLoopState : State := { objs := [], patched := false, depth := 0, hasLoop := false }

/-! Helper lemmas shared by the claim theorems. -/

/-- An index that looks up successfully is within bounds. -/
theorem lookup_lt {α : Type} {l : List α} {i : Nat} {a : α} (h : l[i]? = some a) :
    i < l.length := by
  by_contra hge
  rw [List.getElem?_eq_none (Nat.le_of_not_lt hge)] at h
  exact Option.noConfusion h

/-- Appending on the right preserves a successful lookup. -/
theorem lookup_append {α : Type} {l l2 : List α} {i : Nat} {a : α} (h : l[i]? = some a) :
    (l ++ l2)[i]? = some a := by
  rw [List.getElem?_append, if_pos (lookup_lt h)]
  exact h

/-- A single attribute access leaves every object already in the store in
place: each branch of the descriptor method either keeps the store or
appends one new object. -/
theorem stateAfterGet_lookup (s : State) (selfId i : Nat) (a b : Val) (t : Tworoutine)
    (h : s.objs[i]? = some t) : (stateAfterGet s selfId a b).objs[i]? = some t := by
  unfold stateAfterGet twGet
  cases hsel : s.objs[selfId]? with
  | none => simpa using h
  | some self =>
    by_cases hn : a = Val.none
    · simp [hn, h]
    · by_cases ht : truthy self.boundInstance
      · simp [hn, ht, Val.dunderGet, h]
      · simp only [hn, ht, if_false, Bool.false_eq_true, if_neg, twInit, nestAsyncioApply]
        simpa using lookup_append h

/-- Any sequence of attribute accesses leaves every object already in the
store in place. -/
theorem twGetEvents_lookup (selfId i : Nat) (t : Tworoutine) :
    ∀ (evs : List (Val × Val)) (s : State), s.objs[i]? = some t →
      (twGetEvents s selfId evs).objs[i]? = some t
  | [], _, h => h
  | e :: rest, s, h =>
    twGetEvents_lookup selfId i t rest (stateAfterGet s selfId e.1 e.2)
      (stateAfterGet_lookup s selfId i e.1 e.2 t h)

/-- The loop acquisition of tworoutine.__call__ is total: it returns the
thread's loop when one is set, and otherwise catches the RuntimeError and
returns a new loop. -/
theorem twAcquireLoop_eq (s : State) :
    twAcquireLoop s = .ok (if s.hasLoop then Loop.existingLoop else Loop.newLoop) := by
  unfold twAcquireLoop getEventLoop
  cases hl : s.hasLoop <;> simp [PyErr.isRuntimeError]

/-- C9: when a DualModeCallable is accessed as an attribute with no concrete
receiver (instance None), the access returns the very same object, unbound,
and changes nothing. -/
theorem c9_no_receiver_returns_self (s : State) (id : Nat) (owner : Val) (t : Tworoutine)
    (hl : s.objs[id]? = some t) :
    twGet s id Val.none owner = .ok (GetResult.twObj id, s) := by
  unfold twGet
  simp [hl]

/-- C9 witness: accessing the unbound wrapper through the class (no
receiver) yields object 0 itself with the store untouched. -/
theorem c9_no_receiver_returns_self_witness :
    twGet unboundState 0 Val.none testClass = .ok (GetResult.twObj 0, unboundState) :=
  c9_no_receiver_returns_self unboundState 0 testClass methodUnbound rfl

/-- C7: binding never mutates the original DualModeCallable: an access with
a concrete receiver on an unbound wrapper allocates a fresh object (a new
id, holding the same factory and the receiver) and leaves the original
object in the store unchanged, and any sequence of binding events (through
an instance or through the class) leaves the original object unchanged. -/
theorem c7_binding_never_mutates (s : State) (selfId : Nat) (t : Tworoutine)
    (evs : List (Val × Val)) (inst owner : Val)
    (hl : s.objs[selfId]? = some t) (hub : t.boundInstance = Val.none)
    (hi : inst ≠ Val.none) :
    (twGetEvents s selfId evs).objs[selfId]? = some t
    ∧ twGet s selfId inst owner =
        .ok (GetResult.twObj s.objs.length,
             { objs := s.objs ++ [{ coroutine := t.coroutine, boundInstance := inst }],
               patched := true, depth := s.depth, hasLoop := s.hasLoop })
    ∧ s.objs.length ≠ selfId := by
  refine ⟨twGetEvents_lookup selfId selfId t evs s hl, ?_, ?_⟩
  · unfold twGet
    simp [hl, hi, hub, truthy, twInit, nestAsyncioApply]
  · exact (Nat.ne_of_lt (lookup_lt hl)).symm

/-- C7 witness: on the concrete test scenario, two binding events (one
through the instance, one through the class) leave the original unbound
wrapper unchanged, and the instance access allocates the bound copy as a
fresh object 1. -/
theorem c7_binding_never_mutates_witness :
    (twGetEvents unboundState 0 evsW).objs[0]? = some methodUnbound
    ∧ twGet unboundState 0 testInstance testClass =
        .ok (GetResult.twObj 1,
             { objs := [methodUnbound, methodBound],
               patched := true, depth := 0, hasLoop := true })
    ∧ (1 : Nat) ≠ 0 :=
  c7_binding_never_mutates unboundState 0 methodUnbound evsW testInstance testClass
    rfl rfl (by decide)

/-- C10: the bound/unbound discrimination in the descriptor method tests the
stored receiver for truthiness; a bound copy whose stored receiver is falsy
(for example int 0) is treated as unbound on a later access with a concrete
receiver: a fresh bound copy with the new receiver is allocated instead of
the already-bound branch being taken. -/
theorem c10_falsy_receiver_rebinds (s : State) (id : Nat) (fac : Factory)
    (recv r owner : Val)
    (hl : s.objs[id]? = some { coroutine := fac, boundInstance := recv })
    (hfalsy : truthy recv = false) (_hb : recv ≠ Val.none) (hr : r ≠ Val.none) :
    twGet s id r owner =
      .ok (GetResult.twObj s.objs.length,
           { objs := s.objs ++ [{ coroutine := fac, boundInstance := r }],
             patched := true, depth := s.depth, hasLoop := s.hasLoop })
    ∧ s.objs.length ≠ id := by
  constructor
  · unfold twGet
    simp [hl, hr, hfalsy, twInit, nestAsyncioApply]
  · exact (Nat.ne_of_lt (lookup_lt hl)).symm

/-- C10 witness: a copy bound to the falsy receiver int 0, re-accessed with
the concrete test instance, yields a fresh copy bound to the test instance
(object 1), not the already-bound branch. -/
theorem c10_falsy_receiver_rebinds_witness :
    twGet falsyBoundState 0 testInstance testClass =
      .ok (GetResult.twObj 1,
           { objs := [{ coroutine := Factory.plain sleepyDoubleFn, boundInstance := Val.int 0 },
                      methodBound],
             patched := true, depth := 0, hasLoop := true })
    ∧ (1 : Nat) ≠ 0 :=
  c10_falsy_receiver_rebinds falsyBoundState 0 (Factory.plain sleepyDoubleFn)
    (Val.int 0) testInstance testClass rfl (by decide) (by decide) (by decide)

/-- C8: the as-suspendable projection is pure: it returns the stored factory
with the process state unchanged (so no side effects and no execution), and
after any sequence of binding events on the object it still returns the
same factory reference. -/
theorem c8_invert_pure (s : State) (id : Nat) (t : Tworoutine) (evs : List (Val × Val))
    (hl : s.objs[id]? = some t) :
    twInvertS s id = .ok (t.coroutine, s)
    ∧ twInvertS (twGetEvents s id evs) id =
        .ok (t.coroutine, twGetEvents s id evs) := by
  constructor
  · unfold twInvertS twInvert
    simp [hl]
  · have h2 := twGetEvents_lookup id id t evs s hl
    unfold twInvertS twInvert
    simp [h2]

/-- C8 witness: on the unbound wrapper, the projection returns the stored
plain factory and the unchanged state, also after two binding events. -/
theorem c8_invert_pure_witness :
    twInvertS unboundState 0 = .ok (Factory.plain sleepyDoubleFn, unboundState)
    ∧ twInvertS (twGetEvents unboundState 0 evsW) 0 =
        .ok (Factory.plain sleepyDoubleFn, twGetEvents unboundState 0 evsW) :=
  c8_invert_pure unboundState 0 methodUnbound evsW rfl

/-- C2: for every wrapped factory and argument list, the synchronous call
operator returns exactly what the asynchronous convention returns when the
caller extracts the factory through the as-suspendable operator, invokes it,
and drives the resulting computation to completion on a scheduler (in this
embedding every factory body is pure with respect to its arguments). -/
theorem c2_sync_equals_async (s : State) (t : Tworoutine) (args : List Val) :
    twCall s t args = specAsyncConvention s t args := by
  unfold twCall specAsyncConvention
  rw [twAcquireLoop_eq]
  cases hc : Factory.call (twInvert t) args <;>
    simp [hc, runUntilComplete]

/-- C4: any failure raised during execution of the wrapped suspendable
computation propagates unchanged, with its kind and payload, through both
the synchronous call operator and the asynchronous convention (provided the
loop actually drives the computation: no other drive is active, or the
re-entrancy patch is applied). -/
theorem c4_failure_passthrough (s : State) (t : Tworoutine) (args : List Val)
    (c : Coro) (e : PyErr)
    (hrun : s.depth = 0 ∨ s.patched = true)
    (hc : Factory.call (twInvert t) args = .ok c)
    (he : c.result = .error e) :
    twCall s t args = .error e ∧ specAsyncConvention s t args = .error e := by
  have hg : ¬(0 < s.depth ∧ s.patched = false) := by
    rcases hrun with h0 | h1
    · simp [h0]
    · simp [h1]
  unfold twCall specAsyncConvention
  rw [twAcquireLoop_eq]
  simp [hc, runUntilComplete, hg, he]

/-- C4 witness: a factory whose coroutine raises ValueError with payload
boom surfaces exactly that failure through both conventions, here on a
thread with no event loop set. -/
theorem c4_failure_passthrough_witness :
    twCall noLoopState failingTw [] = .error (.userError "ValueError" (Val.str "boom"))
    ∧ specAsyncConvention noLoopState failingTw []
        = .error (.userError "ValueError" (Val.str "boom")) :=
  c4_failure_passthrough noLoopState failingTw []
    { result := .error (.userError "ValueError" (Val.str "boom")) }
    (.userError "ValueError" (Val.str "boom")) (Or.inl rfl) rfl rfl

/-- C5: the synchronous call operator never fails for want of a scheduler:
its loop acquisition always succeeds, reusing the thread's loop when one is
set and otherwise catching the RuntimeError that asyncio raises and creating
a new loop scoped to this call. -/
theorem c5_loop_acquisition_total (s : State) :
    twAcquireLoop s = .ok (if s.hasLoop then Loop.existingLoop else Loop.newLoop)
    ∧ getEventLoop { s with hasLoop := false } = .error (.runtimeError noLoopMsg)
    ∧ twAcquireLoop { s with hasLoop := false } = .ok Loop.newLoop := by
  refine ⟨twAcquireLoop_eq s, ?_, ?_⟩
  · unfold getEventLoop
    simp
  · rw [twAcquireLoop_eq]
    simp

/-- C3: re-entrancy: the nest_asyncio capability patch is idempotent and has
no observable effect once applied; constructing any DualModeCallable applies
it process-wide; and in any state where it is applied (any state after a
construction), a synchronous call issued while a drive-to-completion is
already active returns the correct result of the wrapped computation rather
than a scheduler-already-running failure. -/
theorem c3_reentrant_sync_call (s : State) (f : Factory) (v : Val)
    (t : Tworoutine) (args : List Val) :
    nestAsyncioApply (nestAsyncioApply s) = nestAsyncioApply s
    ∧ (s.patched = true → nestAsyncioApply s = s)
    ∧ (twInit f v s).2.patched = true
    ∧ (s.patched = true → twCall s t args = coroResult t args) := by
  refine ⟨rfl, ?_, rfl, ?_⟩
  · intro h
    cases s
    simp_all [nestAsyncioApply]
  · intro hp
    unfold twCall coroResult
    rw [twAcquireLoop_eq]
    cases hc : Factory.call (twInvert t) args <;>
      simp [hc, runUntilComplete, hp]

/-- C3 witness: with the patch applied and one drive-to-completion already
active (depth 1), the synchronous call of the decorated free function
returns the correct result; the patch is idempotent and re-application
changes nothing; construction sets the patch flag. -/
theorem c3_reentrant_sync_call_witness :
    nestAsyncioApply (nestAsyncioApply midExecState) = nestAsyncioApply midExecState
    ∧ nestAsyncioApply midExecState = midExecState
    ∧ (twInit (Factory.plain sleepyDoubleFunctionFn) Val.none midExecState).2.patched = true
    ∧ twCall midExecState freeTw [Val.int 2] = coroResult freeTw [Val.int 2] :=
  have h := c3_reentrant_sync_call midExecState (Factory.plain sleepyDoubleFunctionFn)
    Val.none freeTw [Val.int 2]
  ⟨h.1, h.2.1 rfl, h.2.2.1, h.2.2.2 rfl⟩

/-- C1: evaluation of the code at the failing inputs of its own test suite.
The descriptor method at line 33 wraps the stored callable UNBOUND (it
passes the private coroutine attribute itself, not its dunder get at the
receiver), so the bound copy produced by attribute access holds the raw
factory and records the receiver without using it: the synchronous call and
the as-suspendable projection of the bound copy invoke the factory with no
receiver injected. For the instance method of the test suite this raises
TypeError (one argument for a two-parameter function) instead of returning
6; for the classmethod and staticmethod variants, calling the raw descriptor
object raises TypeError under Python 3.7. Had line 33 bound the factory via
its own descriptor protocol, as the specification requires, all three kinds
would return 6. -/
theorem c1_binding_drops_receiver :
    twGet decoratedState 0 testInstance testClass = .ok (GetResult.twObj 1, accessedState)
    ∧ methodBound.coroutine = Factory.plain sleepyDoubleFn
    ∧ twCall accessedState methodBound [Val.int 3] = .error (.typeError arityMsg)
    ∧ Factory.call (twInvert methodBound) [Val.int 3] = .error (.typeError arityMsg)
    ∧ twCall accessedState
        { coroutine := Factory.classmethodDesc sleepyDoubleFn, boundInstance := testInstance }
        [Val.int 3] = .error (.typeError classmethodNotCallableMsg)
    ∧ twCall accessedState
        { coroutine := Factory.staticmethodDesc sleepyDoubleFunctionFn, boundInstance := testInstance }
        [Val.int 3] = .error (.typeError staticmethodNotCallableMsg)
    ∧ twCall accessedState
        { coroutine := Factory.get (Factory.plain sleepyDoubleFn) testInstance testClass,
          boundInstance := testInstance }
        [Val.int 3] = .ok (Val.int 6)
    ∧ twCall accessedState
        { coroutine := Factory.get (Factory.classmethodDesc sleepyDoubleFn) testInstance testClass,
          boundInstance := testInstance }
        [Val.int 3] = .ok (Val.int 6)
    ∧ twCall accessedState
        { coroutine := Factory.get (Factory.staticmethodDesc sleepyDoubleFunctionFn) testInstance testClass,
          boundInstance := testInstance }
        [Val.int 3] = .ok (Val.int 6) :=
  ⟨rfl, rfl, rfl, rfl, rfl, rfl, rfl, rfl, rfl⟩

/-- C6: evaluation of the code at the failing input. When a bound copy
(stored receiver truthy) is accessed as an attribute with a concrete
receiver, line 29 evaluates the dunder get attribute of the STORED RECEIVER
(an ordinary object, which has no such attribute), so the access raises
AttributeError instead of returning the bound copy unchanged. -/
theorem c6_bound_access_raises :
    twGet boundState 0 testInstance testClass
      = .error (.attributeError "object object has no attribute __get__")
    ∧ twGet boundState 0 testInstance testClass ≠ .ok (GetResult.twObj 0, boundState) := by
  have h1 : twGet boundState 0 testInstance testClass
      = Except.error (PyErr.attributeError "object object has no attribute __get__") := rfl
  refine ⟨h1, ?_⟩
  intro h
  rw [h1] at h
  exact Except.noConfusion h
